import Mathlib

/- Shallow embedding of src/main.py of the cv_checker web service.
   Python strings are modeled as Lean String or List Char, byte streams as
   List Nat (one entry per byte), Unicode code points as Nat, and Python
   functions that can raise are modeled with Option or Except.  External
   collaborators (the completion API, the payment provider, the PDF and
   DOCX parsing libraries) are modeled as inputs. -/

/-- ASCII decimal digits: the characters that the digit class of the score
regex recognises (the ASCII fragment of the Python regex class d). -/
def isDig (c : Char) : Bool := decide (48 ≤ c.toNat) && decide (c.toNat ≤ 57)

/-- ASCII whitespace as matched by the Python regex class s: space, tab,
newline, carriage return, vertical tab, form feed. -/
def isWs (c : Char) : Bool :=
  decide (c.toNat = 32) || decide (c.toNat = 9) || decide (c.toNat = 10) ||
  decide (c.toNat = 13) || decide (c.toNat = 11) || decide (c.toNat = 12)

/-- Drop the longest run of whitespace: the greedy s-star pieces of the
score pattern.  Greedy consumption is complete here because no other
token of the pattern can match a whitespace character. -/
def dropWs (cs : List Char) : List Char := cs.dropWhile isWs

/-- Does the literal token 100 of the score pattern start here? -/
def lit100 : List Char → Bool
  | '1' :: '0' :: '0' :: _ => true
  | _ => false

/-- The separator alternatives of the score pattern: a slash or the word
von, each followed by optional whitespace and the literal 100. -/
def sepTail : List Char → Bool
  | '/' :: r => lit100 (dropWs r)
  | 'v' :: 'o' :: 'n' :: r => lit100 (dropWs r)
  | _ => false

/-- Match the part of the score pattern that follows the digit group:
optional whitespace, an optional separator (slash or von), optional
whitespace, and the literal 100.  A true result means that some choice of
the optional separator matches, which is exactly when the backtracking
engine of Python re succeeds. -/
def matchTail (cs : List Char) : Bool :=
  sepTail (dropWs cs) || lit100 (dropWs cs)

/-- Try to match the whole score pattern at the start of cs.  The digit
group is greedy: three digits are tried first, then two, then one, each
followed by matchTail, exactly as the backtracking engine of Python re
does for the bounded repetition of the digit class.  On success, the
digit group (regex group one) is returned. -/
def matchAt (cs : List Char) : Option (List Char) :=
  if (cs.take 3).length = 3 ∧ (cs.take 3).all isDig = true ∧ matchTail (cs.drop 3) = true then
    some (cs.take 3)
  else if (cs.take 2).length = 2 ∧ (cs.take 2).all isDig = true ∧ matchTail (cs.drop 2) = true then
    some (cs.take 2)
  else if (cs.take 1).length = 1 ∧ (cs.take 1).all isDig = true ∧ matchTail (cs.drop 1) = true then
    some (cs.take 1)
  else none

/-- re.search of line 195: scan the start positions from left to right and
return group one of the first successful match. -/
def reSearch : List Char → Option (List Char)
  | [] => none
  | c :: rest =>
    match matchAt (c :: rest) with
    | some g => some g
    | none => reSearch rest

/-- int() applied to the digit group of the match (line 196). -/
def parseDigits (g : List Char) : Nat :=
  g.foldl (fun a c => a * 10 + (c.toNat - 48)) 0

/-- Lines 196 to 198: score is the parsed group when there is a match and
None otherwise, and the truthiness-guarded clamp replaces a truthy score
above 100 by 100. -/
def clampScore : Option Nat → Option Nat
  | some n => if n ≠ 0 ∧ 100 < n then some 100 else some n
  | none => none

/-- The score value handed to the result template on line 206: either a
number or the placeholder dash. -/
inductive ScoreVal where
  | dash : ScoreVal
  | num : Nat → ScoreVal
deriving DecidableEq

/-- Line 206: score if score else the dash, so None and 0 both render as
the dash. -/
def scoreValue : Option Nat → ScoreVal
  | some n => if n = 0 then ScoreVal.dash else ScoreVal.num n
  | none => ScoreVal.dash

/-- Python str.strip applied to the completion content on line 187 (ASCII
whitespace fragment). -/
def stripText (l : List Char) : List Char :=
  ((l.dropWhile isWs).reverse.dropWhile isWs).reverse

/-- Score extraction from the stripped completion output: the composition
of lines 195 to 198 with the rendering choice of line 206. -/
def scoreFromOutput (out : List Char) : ScoreVal :=
  scoreValue (clampScore ((reSearch out).map parseDigits))

/-- The score rendered for a raw completion content string: the content is
stripped (line 187) and the score pattern is searched in the result. -/
def analyzeScore (content : String) : ScoreVal :=
  scoreFromOutput (stripText content.data)

/-- Reading of the spec description of score extraction (section 4.4 item
two): the digit group of the first match is parsed as an integer and a
parsed value exceeding 100 is clamped to 100; no match leaves the score
undefined. -/
def specExtractScore (cs : List Char) : Option Nat :=
  (reSearch cs).map (fun g => min (parseDigits g) 100)

/-- Python str.startswith on char lists, helper for the suffix tests. -/
def listStartsWith : List Char → List Char → Bool
  | [], _ => true
  | _ :: _, [] => false
  | p :: ps, c :: cs => p == c && listStartsWith ps cs

/-- Substring containment (the Python in operator on strings), used only
to state claims about texts that contain a given fragment. -/
def containsSubstr : List Char → List Char → Bool
  | s, pat =>
    listStartsWith pat s ||
      match s with
      | [] => false
      | _ :: rest => containsSubstr rest pat

/-- Python str.endswith on char lists. -/
def endsWithL (s suf : List Char) : Bool := listStartsWith suf.reverse s.reverse

/-- Case folding of a file name (Python str.lower, ASCII fragment). -/
def lowerName (n : List Char) : List Char := n.map Char.toLower

/-- ALLOWED_EXTENSIONS of line 35. -/
def ALLOWED_EXTENSIONS : List String := [".pdf", ".docx", ".txt"]

/-- allowed_file of lines 37 to 39: accept only file names whose
lowercased form ends in one of the allowed extensions. -/
def allowed_file (filename : List Char) : Bool :=
  ALLOWED_EXTENSIONS.any (fun ext => endsWithL (lowerName filename) ext.data)

/-- A byte continues a UTF-8 sequence when it lies in the range 80 to BF
(hexadecimal). -/
def isContByte (b : Nat) : Bool := decide (128 ≤ b) && decide (b ≤ 191)

/-- Lower bound of the allowed range of the second byte of a multi-byte
UTF-8 sequence; it depends on the lead byte, which is what rules out
overlong encodings, surrogates and code points beyond 10FFFF, as the
strict decoder of CPython does. -/
def sndLo (b : Nat) : Nat := if b = 224 then 160 else if b = 240 then 144 else 128

/-- Upper bound of the allowed range of the second byte, see sndLo. -/
def sndHi (b : Nat) : Nat := if b = 237 then 159 else if b = 244 then 143 else 191

/-- Is b1 an allowed second byte after the lead byte b? -/
def isSndByte (b b1 : Nat) : Bool := decide (sndLo b ≤ b1) && decide (b1 ≤ sndHi b)

/-- The UTF-8 decoder of CPython with an error handler that emits err per
invalid maximal subpart (err empty models errors equal ignore, err with
the single replacement character 65533 models errors equal replace).
Fuel driven; each step consumes at least one byte, so fuel equal to the
length of the byte list is always enough. -/
def utf8DecodeAux (err : List Nat) : Nat → List Nat → List Nat
  | _, [] => []
  | 0, _ :: _ => []
  | fuel + 1, b :: bs =>
    if b ≤ 127 then b :: utf8DecodeAux err fuel bs
    else if 194 ≤ b ∧ b ≤ 223 then
      match bs with
      | [] => err
      | b1 :: r1 =>
        if isContByte b1 = true then
          ((b - 192) * 64 + (b1 - 128)) :: utf8DecodeAux err fuel r1
        else err ++ utf8DecodeAux err fuel (b1 :: r1)
    else if 224 ≤ b ∧ b ≤ 239 then
      match bs with
      | [] => err
      | b1 :: r1 =>
        if isSndByte b b1 = true then
          match r1 with
          | [] => err
          | b2 :: r2 =>
            if isContByte b2 = true then
              ((b - 224) * 4096 + (b1 - 128) * 64 + (b2 - 128)) :: utf8DecodeAux err fuel r2
            else err ++ utf8DecodeAux err fuel (b2 :: r2)
        else err ++ utf8DecodeAux err fuel (b1 :: r1)
    else if 240 ≤ b ∧ b ≤ 244 then
      match bs with
      | [] => err
      | b1 :: r1 =>
        if isSndByte b b1 = true then
          match r1 with
          | [] => err
          | b2 :: r2 =>
            if isContByte b2 = true then
              match r2 with
              | [] => err
              | b3 :: r3 =>
                if isContByte b3 = true then
                  ((b - 240) * 262144 + (b1 - 128) * 4096 + (b2 - 128) * 64 + (b3 - 128)) ::
                    utf8DecodeAux err fuel r3
                else err ++ utf8DecodeAux err fuel (b3 :: r3)
            else err ++ utf8DecodeAux err fuel (b2 :: r2)
        else err ++ utf8DecodeAux err fuel (b1 :: r1)
    else err ++ utf8DecodeAux err fuel bs

/-- bytes.decode with the given error-handler output per invalid maximal
subpart; the result is the list of decoded code points. -/
def utf8DecodeWith (err : List Nat) (l : List Nat) : List Nat :=
  utf8DecodeAux err l.length l

/-- decode with utf-8 and errors equal ignore, as on line 51 of the
source: invalid maximal subparts are dropped. -/
def utf8IgnoreDecode (l : List Nat) : List Nat := utf8DecodeWith [] l

/-- Reading of the spec wording (sections 4.1 and 8) that invalid byte
sequences are replaced: each invalid maximal subpart becomes the
replacement character 65533 (U+FFFD). -/
def utf8ReplaceDecode (l : List Nat) : List Nat := utf8DecodeWith [65533] l

/-- An uploaded file: its name, its byte content, and the results of the
external parsing libraries when the content parses as a PDF (per-page
extracted text, none for a page that yields no text) or as a DOCX
(paragraph texts).  The parsers are external collaborators, so their
results are inputs of the model; page and paragraph texts are lists of
Unicode code points. -/
structure UploadFile where
  filename : List Char
  pdfParse : Option (List (Option (List Nat)))
  docxParse : Option (List (List Nat))
  bytes : List Nat

/-- Python str.join with a newline separator. -/
def joinNl (ts : List (List Nat)) : List Nat := List.intercalate [10] ts

/-- extract_text of lines 42 to 51: dispatch on the lowercased file name;
a PDF yields the texts of its pages (empty for a page without extractable
text) joined by newline, a DOCX yields its paragraph texts joined by
newline, and any other name has its byte content decoded as UTF-8 with
undecodable bytes ignored.  The result none models the exception raised
when the external parser rejects the content. -/
def extract_text (f : UploadFile) : Option (List Nat) :=
  if endsWithL (lowerName f.filename) (".pdf".data) = true then
    match f.pdfParse with
    | none => none
    | some pages => some (joinNl (pages.map (fun p => p.getD [])))
  else if endsWithL (lowerName f.filename) (".docx".data) = true then
    match f.docxParse with
    | none => none
    | some paras => some (joinNl paras)
  else some (utf8IgnoreDecode f.bytes)

/-- The values the analyze route hands to the result template: the file
name, the stripped raw completion content (whose external Markdown
rendering is what the page shows) and the extracted score. -/
structure AnalyzeResponse where
  filename : List Char
  output_raw : List Char
  score : ScoreVal
deriving DecidableEq

/-- The analyze route of lines 89 to 208: the upload goes straight into
extract_text - allowed_file is never called on it - the extracted text is
sent to the external completion service (modeled as the function
completionOf from extracted text to completion content), and the stripped
content has its score extracted.  The result none models an exception
escaping as a generic server error. -/
def analyze (f : UploadFile) (completionOf : List Nat → String) : Option AnalyzeResponse :=
  match extract_text f with
  | none => none
  | some text =>
    some { filename := f.filename,
           output_raw := stripText (completionOf text).data,
           score := analyzeScore (completionOf text) }

/-- price_data of the single Stripe line item (lines 76 to 80). -/
structure PriceData where
  currency : String
  product_name : String
  unit_amount : Nat
deriving DecidableEq

/-- One Stripe line item (lines 75 to 82). -/
structure LineItem where
  price_data : PriceData
  quantity : Nat
deriving DecidableEq

/-- The checkout session creation request sent to the payment provider
(lines 72 to 85). -/
structure CheckoutSessionReq where
  payment_method_types : List String
  mode : String
  line_items : List LineItem
  success_url : String
  cancel_url : String
deriving DecidableEq

/-- The redirect response of line 86. -/
structure RedirectResp where
  url : String
  status_code : Nat
deriving DecidableEq

/-- create_checkout of lines 70 to 86: the request built from the
configured base URL, paired with the redirect response built from the
session URL returned by the provider (an external collaborator, so an
input of the model). -/
def create_checkout (base_url : String) (sessionUrl : String) :
    CheckoutSessionReq × RedirectResp :=
  ({ payment_method_types := ["card"],
     mode := "payment",
     line_items := [{ price_data := { currency := "eur",
                                      product_name := "AI Bewerbungs-Check",
                                      unit_amount := 500 },
                      quantity := 1 }],
     success_url := base_url ++ "/?paid=true",
     cancel_url := base_url ++ "/" },
   { url := sessionUrl, status_code := 303 })

/-- The process-wide configuration built at startup (lines 21 to 24). -/
structure AppConfig where
  openai_key : String
  stripe_public : Option String
  stripe_secret : String
  base_url : String

/-- Python falsiness of an optional string: None or the empty string. -/
def falsyStr : Option String → Bool
  | none => true
  | some s => s == ""

/-- Startup of lines 21 to 32: read the four environment entries; raise a
RuntimeError (modeled as Except.error) when the language-model key or the
payment secret key is falsy, and otherwise build the process
configuration, with the base URL defaulting to the loopback address. -/
def startup (env : String → Option String) : Except String AppConfig :=
  if falsyStr (env "OPENAI_API_KEY") = true then
    Except.error "OPENAI_API_KEY fehlt in .env"
  else if falsyStr (env "STRIPE_SECRET_KEY") = true then
    Except.error "STRIPE_SECRET_KEY fehlt in .env"
  else
    Except.ok { openai_key := (env "OPENAI_API_KEY").getD "",
                stripe_public := env "STRIPE_PUBLIC_KEY",
                stripe_secret := (env "STRIPE_SECRET_KEY").getD "",
                base_url := (env "BASE_URL").getD "http://127.0.0.1:8000" }

/-- Every digit group returned by a successful match at one position has
one to three characters, all decimal digits. -/
theorem matchAt_group (cs g : List Char) (h : matchAt cs = some g) :
    1 ≤ g.length ∧ g.length ≤ 3 ∧ g.all isDig = true := by
  unfold matchAt at h
  split_ifs at h with h1 h2 h3
  · obtain ⟨hl, hd, -⟩ := h1
    injection h with h
    subst h
    exact ⟨by omega, by omega, hd⟩
  · obtain ⟨hl, hd, -⟩ := h2
    injection h with h
    subst h
    exact ⟨by omega, by omega, hd⟩
  · obtain ⟨hl, hd, -⟩ := h3
    injection h with h
    subst h
    exact ⟨by omega, by omega, hd⟩

/-- Every digit group returned by the search has one to three characters,
all decimal digits. -/
theorem reSearch_group (cs g : List Char) (h : reSearch cs = some g) :
    1 ≤ g.length ∧ g.length ≤ 3 ∧ g.all isDig = true := by
  induction cs with
  | nil => exact Option.noConfusion h
  | cons c rest ih =>
    cases hm : matchAt (c :: rest) with
    | some g0 =>
      simp only [reSearch, hm, Option.some.injEq] at h
      subst h
      exact matchAt_group _ _ hm
    | none =>
      simp only [reSearch, hm] at h
      exact ih h

/-- Folding decimal digits starting from accumulator a stays below
(a plus one) times ten to the length. -/
theorem foldlDigits_lt (g : List Char) :
    ∀ a : Nat, g.all isDig = true →
      g.foldl (fun x c => x * 10 + (c.toNat - 48)) a < (a + 1) * 10 ^ g.length := by
  induction g with
  | nil =>
    intro a _
    simp
  | cons c g ih =>
    intro a hall
    simp only [List.all_cons, Bool.and_eq_true] at hall
    obtain ⟨hc, hg⟩ := hall
    have hd : c.toNat - 48 ≤ 9 := by
      simp only [isDig, Bool.and_eq_true, decide_eq_true_eq] at hc
      omega
    have h1 := ih (a * 10 + (c.toNat - 48)) hg
    simp only [List.foldl_cons, List.length_cons]
    have h2 : (a * 10 + (c.toNat - 48) + 1) * 10 ^ g.length ≤ (a + 1) * 10 ^ (g.length + 1) := by
      rw [pow_succ]
      have h3 : a * 10 + (c.toNat - 48) + 1 ≤ (a + 1) * 10 := by omega
      calc (a * 10 + (c.toNat - 48) + 1) * 10 ^ g.length
          ≤ ((a + 1) * 10) * 10 ^ g.length := Nat.mul_le_mul_right _ h3
        _ = (a + 1) * (10 ^ g.length * 10) := by ring
    exact lt_of_lt_of_le h1 h2

/-- A group of at most three decimal digits parses to at most 999. -/
theorem parseDigits_le (g : List Char) (h1 : g.length ≤ 3) (h2 : g.all isDig = true) :
    parseDigits g ≤ 999 := by
  have hlt := foldlDigits_lt g 0 h2
  have hp : 10 ^ g.length ≤ 10 ^ 3 := Nat.pow_le_pow_right (by norm_num) h1
  simp only [Nat.zero_add, one_mul] at hlt
  norm_num at hp
  simp only [parseDigits]
  omega

/-- A name that ends in the docx extension cannot also end in the pdf
extension (the last characters differ). -/
theorem docx_not_pdf (n : List Char) (h : endsWithL n (".docx".data) = true) :
    endsWithL n (".pdf".data) = false := by
  unfold endsWithL at h ⊢
  have hd : (".docx".data).reverse = ['x', 'c', 'o', 'd', '.'] := by rfl
  have hp : (".pdf".data).reverse = ['f', 'd', 'p', '.'] := by rfl
  rw [hd] at h
  rw [hp]
  cases hn : n.reverse with
  | nil =>
    rw [hn] at h
    exact absurd h (by decide)
  | cons c r =>
    rw [hn] at h
    simp only [listStartsWith, Bool.and_eq_true, beq_iff_eq] at h
    obtain ⟨hc, -⟩ := h
    subst hc
    have hfx : ('f' == 'x') = false := by decide
    simp [listStartsWith, hfx]

/-- C1 (amended): the completion text 87/100 itself is scored 87, the
completion text 150 von 100 itself is scored 100 (clamped), and any
completion content in which the score pattern finds no match is rendered
as the placeholder dash. -/
theorem C1_score_examples :
    analyzeScore "87/100" = ScoreVal.num 87
    ∧ analyzeScore "150 von 100" = ScoreVal.num 100
    ∧ ∀ s : String, reSearch (stripText s.data) = none → analyzeScore s = ScoreVal.dash := by
  refine ⟨by decide, by decide, fun s h => ?_⟩
  unfold analyzeScore scoreFromOutput
  rw [h]
  decide

/-- C1 witness: a text without the score pattern renders the dash. -/
theorem C1_score_examples_witness : analyzeScore "Sehr gut" = ScoreVal.dash :=
  C1_score_examples.2.2 "Sehr gut" (by decide)

/-- C1 counterexample: the completion text 187/100 contains the substring
87/100, yet the rendered score is 100 (the digit group of the first match
is 187, which is clamped), not 87 as the claim states for any text
containing 87/100. -/
theorem C1_counterexample :
    containsSubstr ("187/100".data) ("87/100".data) = true
    ∧ analyzeScore "187/100" ≠ ScoreVal.num 87 := by
  decide

/-- C2: the score-extraction step searches the text for one to three
digits, an optional separator (slash or the word von) and the literal
token 100; the digit group of the first match (one to three digit
characters) is parsed as an integer, absence of a match yields the
undefined score, and a parsed value exceeding 100 is clamped to 100 - so
the extracted score agrees with the spec-side description
specExtractScore. -/
theorem C2_score_extraction (cs : List Char) :
    clampScore ((reSearch cs).map parseDigits) = specExtractScore cs
    ∧ ∀ g, reSearch cs = some g → 1 ≤ g.length ∧ g.length ≤ 3 ∧ g.all isDig = true := by
  constructor
  · cases h : reSearch cs with
    | none => simp [specExtractScore, h, clampScore]
    | some g =>
      simp only [specExtractScore, h, Option.map_some']
      simp only [clampScore]
      split_ifs with hc
      · congr 1
        omega
      · congr 1
        omega
  · exact fun g hg => reSearch_group cs g hg

/-- C2 witness: on the text 87/100 the first match has the two digit
characters 8 and 7. -/
theorem C2_score_extraction_witness :
    1 ≤ (['8', '7'] : List Char).length
    ∧ (['8', '7'] : List Char).length ≤ 3
    ∧ (['8', '7'] : List Char).all isDig = true :=
  (C2_score_extraction ("87/100".data)).2 ['8', '7'] (by decide)

/-- C3: when the digit group of the first match is the single character 0,
the truthiness guard of line 206 renders the placeholder dash instead of
the score 0. -/
theorem C3_zero_renders_dash (s : String)
    (h : reSearch (stripText s.data) = some ['0']) :
    analyzeScore s = ScoreVal.dash := by
  unfold analyzeScore scoreFromOutput
  rw [h]
  decide

/-- C3 witness: the completion text 0/100 renders the dash. -/
theorem C3_zero_renders_dash_witness : analyzeScore "0/100" = ScoreVal.dash :=
  C3_zero_renders_dash "0/100" (by decide)

/-- C4 (amended): a file whose lowercased name ends neither in pdf nor in
docx extension is decoded as UTF-8 with undecodable byte sequences
ignored (dropped), and extraction always succeeds on it (never raises). -/
theorem C4_txt_decoding (f : UploadFile)
    (hp : endsWithL (lowerName f.filename) (".pdf".data) = false)
    (hd : endsWithL (lowerName f.filename) (".docx".data) = false) :
    extract_text f = some (utf8IgnoreDecode f.bytes) := by
  simp [extract_text, hp, hd]

/-- C4 witness: a txt upload with one invalid byte between two ASCII
letters decodes to the two letters. -/
theorem C4_txt_decoding_witness :
    extract_text { filename := "a.txt".data, pdfParse := none, docxParse := none,
                   bytes := [104, 255, 105] }
      = some (utf8IgnoreDecode [104, 255, 105]) :=
  C4_txt_decoding
    { filename := "a.txt".data, pdfParse := none, docxParse := none, bytes := [104, 255, 105] }
    (by decide) (by decide)

/-- C4 counterexample: for the txt upload whose single byte is FF the code
yields the empty text (the invalid byte is ignored), not the decoding
with the byte replaced by the replacement character that the claim
describes. -/
theorem C4_counterexample :
    extract_text { filename := "a.txt".data, pdfParse := none, docxParse := none, bytes := [255] }
      ≠ some (utf8ReplaceDecode [255]) := by
  decide

/-- C5: a file whose lowercased name ends in the pdf extension and whose
content parses as a PDF yields the per-page texts, the empty text for a
page without extractable text, joined by newline. -/
theorem C5_pdf_extraction (f : UploadFile) (pages : List (Option (List Nat)))
    (hn : endsWithL (lowerName f.filename) (".pdf".data) = true)
    (hp : f.pdfParse = some pages) :
    extract_text f = some (joinNl (pages.map (fun p => p.getD []))) := by
  simp [extract_text, hn, hp]

/-- C5 witness: a three page PDF with a middle page that yields no text. -/
theorem C5_pdf_extraction_witness :
    extract_text { filename := "cv.PDF".data, pdfParse := some [some [72], none, some [105]],
                   docxParse := none, bytes := [] }
      = some (joinNl ([some [72], none, some [105]].map (fun p => p.getD []))) :=
  C5_pdf_extraction
    { filename := "cv.PDF".data, pdfParse := some [some [72], none, some [105]],
      docxParse := none, bytes := [] }
    [some [72], none, some [105]] (by decide) rfl

/-- C6: a file whose lowercased name ends in the docx extension and whose
content parses as a document with paragraphs yields the paragraph texts
joined by newline, in order. -/
theorem C6_docx_extraction (f : UploadFile) (paras : List (List Nat))
    (hn : endsWithL (lowerName f.filename) (".docx".data) = true)
    (hp : f.docxParse = some paras) :
    extract_text f = some (joinNl paras) := by
  have hpdf := docx_not_pdf _ hn
  simp [extract_text, hpdf, hn, hp]

/-- C6 witness: a two paragraph document, mixed-case file name. -/
theorem C6_docx_extraction_witness :
    extract_text { filename := "cv.DocX".data, pdfParse := none,
                   docxParse := some [[72, 105], [100, 117]], bytes := [] }
      = some (joinNl [[72, 105], [100, 117]]) :=
  C6_docx_extraction
    { filename := "cv.DocX".data, pdfParse := none,
      docxParse := some [[72, 105], [100, 117]], bytes := [] }
    [[72, 105], [100, 117]] (by decide) rfl

/-- C7: every checkout creation requests exactly the one line item of unit
amount 500 in the fixed currency eur with quantity one, mode payment,
both redirect URLs extend the configured base URL, and the response is a
303 redirect to the session URL returned by the provider. -/
theorem C7_checkout (base_url sessionUrl : String) :
    (create_checkout base_url sessionUrl).1.line_items
      = [{ price_data := { currency := "eur", product_name := "AI Bewerbungs-Check",
                           unit_amount := 500 }, quantity := 1 }]
    ∧ (create_checkout base_url sessionUrl).1.mode = "payment"
    ∧ (∃ rest, (create_checkout base_url sessionUrl).1.success_url = base_url ++ rest)
    ∧ (∃ rest, (create_checkout base_url sessionUrl).1.cancel_url = base_url ++ rest)
    ∧ (create_checkout base_url sessionUrl).2.status_code = 303
    ∧ (create_checkout base_url sessionUrl).2.url = sessionUrl :=
  ⟨rfl, rfl, ⟨"/?paid=true", rfl⟩, ⟨"/", rfl⟩, rfl, rfl⟩

/-- C7 witness: concrete base URL and session URL. -/
theorem C7_checkout_witness :
    (create_checkout "http://127.0.0.1:8000" "https://pay.example/s").2.status_code = 303 :=
  (C7_checkout "http://127.0.0.1:8000" "https://pay.example/s").2.2.2.2.1

/-- C8: the analyze route never calls allowed_file - an upload with the
disallowed extension exe goes straight into extract_text and produces a
full response, contradicting the claim that extraction is only reached
for allow-listed extensions. -/
theorem C8_no_validation :
    allowed_file ("resume.exe".data) = false
    ∧ analyze { filename := "resume.exe".data, pdfParse := none, docxParse := none,
                bytes := [104, 105] } (fun _ => "ok")
      = some { filename := "resume.exe".data, output_raw := "ok".data,
               score := ScoreVal.dash } := by
  decide

/-- C9: an absent language-model key or an absent payment secret key makes
startup fail fatally; when both are present and nonempty, startup
succeeds regardless of the publishable key, and an absent base URL
defaults to the loopback address. -/
theorem C9_startup (env : String → Option String) :
    ((env "OPENAI_API_KEY" = none ∨ env "STRIPE_SECRET_KEY" = none) →
        ∃ msg, startup env = Except.error msg)
    ∧ (∀ c, startup env = Except.ok c → env "BASE_URL" = none →
        c.base_url = "http://127.0.0.1:8000")
    ∧ (falsyStr (env "OPENAI_API_KEY") = false →
        falsyStr (env "STRIPE_SECRET_KEY") = false →
        ∃ c, startup env = Except.ok c) := by
  refine ⟨?_, ?_, ?_⟩
  · intro habs
    unfold startup
    rcases habs with h | h
    · rw [h]
      exact ⟨"OPENAI_API_KEY fehlt in .env", rfl⟩
    · rw [h]
      by_cases h1 : falsyStr (env "OPENAI_API_KEY") = true
      · rw [if_pos h1]
        exact ⟨"OPENAI_API_KEY fehlt in .env", rfl⟩
      · rw [if_neg h1]
        exact ⟨"STRIPE_SECRET_KEY fehlt in .env", rfl⟩
  · intro c hok hbase
    unfold startup at hok
    split_ifs at hok with h1 h2
    injection hok with hok
    subst hok
    simp [hbase]
  · intro h1 h2
    unfold startup
    rw [h1, h2]
    exact ⟨_, rfl⟩

/-- C9 witness: the empty environment makes startup fail. -/
theorem C9_startup_witness :
    ∃ msg, startup (fun _ => none) = Except.error msg :=
  (C9_startup (fun _ => none)).1 (Or.inl rfl)

/-- C10: the score handed to the result template is either the dash
placeholder or an integer between 1 and 100; moreover the parsed digit
group of any match is at most 999. -/
theorem C10_score_invariant (s : String) :
    (∀ g, reSearch (stripText s.data) = some g → parseDigits g ≤ 999)
    ∧ (analyzeScore s = ScoreVal.dash
       ∨ ∃ n, 1 ≤ n ∧ n ≤ 100 ∧ analyzeScore s = ScoreVal.num n) := by
  constructor
  · intro g hg
    obtain ⟨-, h3, hd⟩ := reSearch_group _ g hg
    exact parseDigits_le g h3 hd
  · unfold analyzeScore scoreFromOutput
    cases ho : (reSearch (stripText s.data)).map parseDigits with
    | none => exact Or.inl rfl
    | some n =>
      by_cases h0 : n = 0
      · subst h0
        exact Or.inl (by decide)
      · by_cases h100 : 100 < n
        · refine Or.inr ⟨100, by omega, by omega, ?_⟩
          simp only [clampScore]
          rw [if_pos ⟨h0, h100⟩]
          decide
        · refine Or.inr ⟨n, by omega, by omega, ?_⟩
          simp only [clampScore]
          rw [if_neg (fun hc => h100 hc.2)]
          simp only [scoreValue]
          rw [if_neg h0]

/-- C10 witness: the digit group parsed on the text 87/100 is at most
999. -/
theorem C10_score_invariant_witness : parseDigits ['8', '7'] ≤ 999 :=
  (C10_score_invariant "87/100").1 ['8', '7'] (by decide)
